import Mathlib

/-!
Verification development for the flashloan repository.

The repository has four Python source files:
  * `src/bot.py` — QuickSwap/SushiSwap spread bot (`FlashLoanBot`);
  * `src/orchestrator.py` — fail-resistant 1inch swap executor
    (`safe_execute_swap_pair`, `estimate_and_simulate`, ...);
  * `src/FlashLoanBot/liquidation_monitor.py` — Aave liquidation scanner
    (`scan_borrowers`, `execute_liquidation`);
  * `src/FlashLoanBot/orchestrator.py` — 1inch pair scanner (`scan_pair`).

Pure computations are translated directly; every RPC / HTTP interaction is an
explicit environment parameter (an `Option` result where the Python call can
raise, with `none` standing for a raised exception that the source catches).
Python `float`/`Decimal` arithmetic is modelled over `ℚ`; raw token amounts are
`Int` as in the source.
-/

set_option maxRecDepth 4000

/-- Python `int(x)` truncates toward zero. -/
def pyInt (q : ℚ) : Int := if q < 0 then ⌈q⌉ else ⌊q⌋

/-- Token symbols appearing in the repository's `TOKENS` tables. -/
inductive TokenSym where
  | USDC
  | USDT
  | DAI
  | WMATIC
  | WETH
  | WBTC
  deriving DecidableEq, Repr

/-- Rejection/acceptance reasons of the spec's `Decision` record. -/
inductive Reason where
  | PROFIT_TOO_LOW
  | SLIPPAGE_EXCEEDED
  | GAS_TOO_HIGH
  | QUOTA_EXCEEDED
  | BUDGET_EXHAUSTED
  | STALE_QUOTE
  | SIMULATION_FAILED
  | NONE
  deriving DecidableEq, Repr

namespace Bot

/-- Relevant fields of `BotConfig` (src/bot.py, lines 22-33). -/
structure BotConfig where
  dry_run : Bool
  loan_amount_usdc : ℚ
  min_profit_usdc : ℚ
  max_gas_gwei : ℚ
  max_daily_attempts : Int
  deriving Repr

/-- `FlashLoanBot.usdc_to_base` (src/bot.py, line 82): `int(amount_usdc * 10**6)`. -/
def usdc_to_base (amount_usdc : ℚ) : Int := pyInt (amount_usdc * 10 ^ 6)

/-- The bot's tracker state: `self.attempts_today` and `self.attempt_day`
(src/bot.py, lines 78-79). The `"%Y-%m-%d"` day string is abstracted to a
`Nat` day key (distinct days get distinct keys). -/
structure Tracker where
  attempts_today : Int
  attempt_day : Nat
  deriving DecidableEq, Repr

/-- `FlashLoanBot._reset_daily_counter_if_needed` (src/bot.py, lines 89-93). -/
def resetDailyCounterIfNeeded (current_day : Nat) (t : Tracker) : Tracker :=
  if current_day ≠ t.attempt_day then
    { attempts_today := 0, attempt_day := current_day }
  else
    t

/-- `FlashLoanBot.get_amount_out` (src/bot.py, lines 95-100). The router
response is `none` when `getAmountsOut(...).call()` raises; `amounts[-1]` on an
empty list raises `IndexError`, which the same `except` catches, so both give
`0`. -/
def get_amount_out (resp : Option (List Int)) : Int :=
  match resp with
  | none => 0
  | some amounts =>
    match amounts.getLast? with
    | none => 0
    | some a => a

/-- Router responses for the four call sites of
`FlashLoanBot.estimate_roundtrip_profit`: each function maps the `amount_in`
argument to the venue's `getAmountsOut` reply (`none` = the call raised). -/
structure QuoteEnv where
  quickBuy : Int → Option (List Int)
  sushiBuy : Int → Option (List Int)
  quickSell : Int → Option (List Int)
  sushiSell : Int → Option (List Int)

/-- `FlashLoanBot.estimate_roundtrip_profit` (src/bot.py, lines 102-114).
Returns `(profit_qs, profit_sq)`. -/
def estimate_roundtrip_profit (env : QuoteEnv) (amount_in_base : Int) : Int × Int :=
  let amount_weth_quick := get_amount_out (env.quickBuy amount_in_base)
  let amount_usdc_sushi := get_amount_out (env.sushiSell amount_weth_quick)
  let profit_qs := amount_usdc_sushi - amount_in_base
  let amount_weth_sushi := get_amount_out (env.sushiBuy amount_in_base)
  let amount_usdc_quick := get_amount_out (env.quickSell amount_weth_sushi)
  let profit_sq := amount_usdc_quick - amount_in_base
  (profit_qs, profit_sq)

/-- Decision record for `should_trade`: the returned boolean, which gate fired
(the source signals it by a `[SAFEGUARD]` print), the tracker state after the
call, and whether the gas-price RPC (`w3.eth.gas_price`) was consulted. -/
structure TradeDecision where
  accept : Bool
  reason : Reason
  tracker : Tracker
  gasQueried : Bool
  deriving DecidableEq, Repr

/-- `FlashLoanBot.should_trade` (src/bot.py, lines 116-130). `gas_price_gwei`
is the environment's answer to the gas-price query; `current_day` is the
current date used by `_reset_daily_counter_if_needed`. -/
def should_trade (cfg : BotConfig) (gas_price_gwei : ℚ) (current_day : Nat)
    (t : Tracker) (expected_profit_base : Int) : TradeDecision :=
  if expected_profit_base < usdc_to_base cfg.min_profit_usdc then
    { accept := false, reason := .PROFIT_TOO_LOW, tracker := t, gasQueried := false }
  else if cfg.max_gas_gwei < gas_price_gwei then
    { accept := false, reason := .GAS_TOO_HIGH, tracker := t, gasQueried := true }
  else
    if cfg.max_daily_attempts ≤ (resetDailyCounterIfNeeded current_day t).attempts_today then
      { accept := false, reason := .QUOTA_EXCEEDED,
        tracker := resetDailyCounterIfNeeded current_day t, gasQueried := true }
    else
      { accept := true, reason := .NONE,
        tracker := resetDailyCounterIfNeeded current_day t, gasQueried := true }

/-- Outcome of `FlashLoanBot.execute_trade`. `raised` records that an RPC step
(nonce fetch, build, sign or send) raised, propagating to the caller. -/
structure ExecOutcome where
  simulated : Bool
  submitted : Bool
  tracker : Tracker
  raised : Bool
  deriving DecidableEq, Repr

/-- `FlashLoanBot.execute_trade` (src/bot.py, lines 132-164). `sendOk` is true
when the nonce/gas/build/sign/send RPC chain succeeds. The function performs
no read-only simulation anywhere, so `simulated` is `false` on every path. -/
def execute_trade (dry_run sendOk : Bool) (t : Tracker) : ExecOutcome :=
  if dry_run then
    { simulated := false, submitted := false, tracker := t, raised := false }
  else if sendOk then
    { simulated := false, submitted := true,
      tracker := { t with attempts_today := t.attempts_today + 1 }, raised := false }
  else
    { simulated := false, submitted := false, tracker := t, raised := true }

end Bot

namespace LiqMon

/-- `get_token_price` (src/FlashLoanBot/liquidation_monitor.py, lines 104-110):
stables are $1, otherwise hardcoded placeholder prices. -/
def get_token_price : TokenSym → ℚ
  | .USDC => 1
  | .USDT => 1
  | .DAI => 1
  | .WMATIC => 1 / 2
  | .WETH => 3000
  | .WBTC => 40000

/-- The `DECIMALS` table (src/FlashLoanBot/liquidation_monitor.py, lines 39-41). -/
def DECIMALS : TokenSym → Nat
  | .USDC => 6
  | .USDT => 6
  | .DAI => 18
  | .WMATIC => 18
  | .WETH => 18
  | .WBTC => 8

/-- Debt value in USD as computed in `scan_borrowers`
(src/FlashLoanBot/liquidation_monitor.py, line 181):
`(debt_amount / (10**debt_decimals)) * price_debt`. -/
def debt_usd (debt_symbol : TokenSym) (debt_amount : Int) : ℚ :=
  ((debt_amount : ℚ) / 10 ^ DECIMALS debt_symbol) * get_token_price debt_symbol

/-- The fixed fee model of `scan_borrowers`
(src/FlashLoanBot/liquidation_monitor.py, line 194): 5% liquidation bonus,
0.09% flash-loan fee, 0.3% swap fee, $0.50 fixed overhead. The candidate
collateral symbol does not occur in the formula. -/
def liqProfit (debtUsd : ℚ) : ℚ :=
  debtUsd * (5 / 100) - debtUsd * (9 / 10000) - debtUsd * (3 / 1000) - 1 / 2

/-- One iteration of the `for coll_symbol in collaterals` loop
(src/FlashLoanBot/liquidation_monitor.py, lines 190-200): the running state is
`(best_profit, best_collateral)` and a candidate replaces it only when its
profit is strictly greater. -/
def selectStep (debtUsd : ℚ) (best : ℚ × Option TokenSym) (coll : TokenSym) :
    ℚ × Option TokenSym :=
  let profit := liqProfit debtUsd
  if best.1 < profit then (profit, some coll) else best

/-- The whole candidate-selection loop, started from
`best_profit = -9999, best_collateral = None`
(src/FlashLoanBot/liquidation_monitor.py, lines 187-200). -/
def selectCollateral (debtUsd : ℚ) (collaterals : List TokenSym) :
    ℚ × Option TokenSym :=
  collaterals.foldl (selectStep debtUsd) (-9999, none)

/-- The acceptance test after the loop
(src/FlashLoanBot/liquidation_monitor.py, line 202):
`best_profit > MIN_PROFIT_USD and best_collateral`. -/
def liqAccepted (minProfitUsd : ℚ) (best : ℚ × Option TokenSym) : Bool :=
  decide (minProfitUsd < best.1) && best.2.isSome

/-- Environment of `execute_liquidation`: whether a signer account exists,
whether `build_transaction` (nonce/fee RPCs included) succeeds, whether the
`w3.eth.call` simulation succeeds, the `DRY_RUN` flag, and whether
the sign-and-send step succeeds. -/
structure LiqEnv where
  hasAccount : Bool
  buildOk : Bool
  simOk : Bool
  dryRun : Int
  sendOk : Bool

/-- Result of `execute_liquidation`: whether the read-only simulation
succeeded (`[SIMULATION] Success!`) and whether `send_raw_transaction`
was reached and succeeded (`[SENT]`). -/
structure LiqResult where
  simulated : Bool
  submitted : Bool
  deriving DecidableEq, Repr

/-- `execute_liquidation` (src/FlashLoanBot/liquidation_monitor.py,
lines 222-273). All failures raise inside the `try` and are caught by the
`except` (`[EXECUTION FAILED]`), aborting without sending. -/
def execute_liquidation (env : LiqEnv) : LiqResult :=
  if !env.hasAccount then { simulated := false, submitted := false }
  else if !env.buildOk then { simulated := false, submitted := false }
  else if !env.simOk then { simulated := false, submitted := false }
  else if env.dryRun = 0 then { simulated := true, submitted := env.sendOk }
  else { simulated := true, submitted := false }

end LiqMon

namespace Orch

/-- `Decimal(...).to_integral_value()` uses the default `ROUND_HALF_EVEN`
context rounding of Python's `decimal` module. -/
def roundHalfEven (q : ℚ) : Int :=
  if q - ⌊q⌋ < 1 / 2 then ⌊q⌋
  else if 1 / 2 < q - ⌊q⌋ then ⌊q⌋ + 1
  else if ⌊q⌋ % 2 = 0 then ⌊q⌋ else ⌊q⌋ + 1

/-- The `TOKEN_DECIMALS` table (src/orchestrator.py, lines 26-32); `none` for
symbols absent from the dict (lookups on those raise `ValueError`). -/
def TOKEN_DECIMALS : TokenSym → Option Nat
  | .USDC => some 6
  | .USDT => some 6
  | .WETH => some 18
  | .WMATIC => some 18
  | _ => none

/-- `to_raw` (src/orchestrator.py, lines 61-65); `none` models the
`ValueError` raised for a symbol without known decimals. -/
def to_raw (amount : ℚ) (token_symbol : TokenSym) : Option Int :=
  (TOKEN_DECIMALS token_symbol).map fun d => roundHalfEven (amount * 10 ^ d)

/-- `from_raw` (src/orchestrator.py, lines 67-71). -/
def from_raw (amount_int : Int) (token_symbol : TokenSym) : Option ℚ :=
  (TOKEN_DECIMALS token_symbol).map fun d => (amount_int : ℚ) / 10 ^ d

/-- `GAS_BUFFER_MULTIPLIER = Decimal("1.20")` (src/orchestrator.py, line 25). -/
def GAS_BUFFER_MULTIPLIER : ℚ := 12 / 10

/-- `estimate_and_simulate` (src/orchestrator.py, lines 136-156). `gasEst` is
the `w3.eth.estimate_gas` reply (`none` = raised); `callOk` tells whether the
`w3.eth.call` simulation succeeds. Returns `(gas_limit, simulation_ok)`. -/
def estimate_and_simulate (gasEst : Option Int) (callOk : Bool) :
    Option Int × Bool :=
  match gasEst with
  | none => (none, false)
  | some g => (some (pyInt ((g : ℚ) * GAS_BUFFER_MULTIPLIER)), callOk)

/-- `gas_cost_usd` (src/orchestrator.py, lines 158-161). -/
def gas_cost_usd (gas_limit gas_price_wei : Int) (matic_price_usd : ℚ) : ℚ :=
  ((gas_limit : ℚ) * (gas_price_wei : ℚ) / 10 ^ 18) * matic_price_usd

/-- `compute_net_profit_usd` (src/orchestrator.py, lines 164-190). `none`
models the `RuntimeError` raised when neither token can be valued. -/
def compute_net_profit_usd (input_amount_raw expected_output_raw : Int)
    (input_token_symbol output_token_symbol : TokenSym)
    (matic_price_usd loan_fee_usd : ℚ) : Option ℚ :=
  let input_usd0 : Option ℚ :=
    if input_token_symbol = TokenSym.USDC ∨ input_token_symbol = TokenSym.USDT then
      from_raw input_amount_raw input_token_symbol
    else none
  let output_usd0 : Option ℚ :=
    if input_token_symbol = TokenSym.USDC ∨ input_token_symbol = TokenSym.USDT then
      if output_token_symbol = TokenSym.USDC ∨ output_token_symbol = TokenSym.USDT then
        from_raw expected_output_raw output_token_symbol
      else none
    else none
  let input_usd : Option ℚ :=
    if input_usd0 = none ∧ input_token_symbol = TokenSym.WMATIC then
      (from_raw input_amount_raw TokenSym.WMATIC).map (· * matic_price_usd)
    else input_usd0
  let output_usd : Option ℚ :=
    if output_usd0 = none ∧ output_token_symbol = TokenSym.WMATIC then
      (from_raw expected_output_raw TokenSym.WMATIC).map (· * matic_price_usd)
    else output_usd0
  match input_usd, output_usd with
  | some i, some o => some (o - i - loan_fee_usd)
  | _, _ => none

/-- Where `safe_execute_swap_pair` stopped. `badToken` stands for the
uncaught `ValueError` of `to_raw` on an unknown symbol. -/
inductive SwapOutcome where
  | badToken
  | quoteFailed
  | swapBuildFailed
  | simFailed
  | profitUncomputable
  | profitTooLow
  | staleQuote
  | dryRunSigned
  | broadcast
  | sendFailed
  deriving DecidableEq, Repr

/-- Observable result of `safe_execute_swap_pair`: the stopping point, whether
`acct.sign_transaction` was reached, and whether `send_raw_transaction`
succeeded. -/
structure SwapResult where
  outcome : SwapOutcome
  signed : Bool
  sent : Bool
  deriving DecidableEq, Repr

/-- Environment of one `safe_execute_swap_pair` run: the two 1inch quote
replies (`none` = the HTTP call raised), whether the 1inch swap-calldata call
succeeds, the gas-estimation reply, whether the `eth_call` simulation
succeeds, gas price and MATIC price, the dry-run flag (the source's
`dry_run or os.getenv("DRY_RUN","1") == "1"` combined), and whether the final
broadcast succeeds. -/
structure SwapEnv where
  quote1 : Option Int
  swapTxOk : Bool
  gasEst : Option Int
  callOk : Bool
  gas_price : Int
  matic_price : ℚ
  quote2 : Option Int
  dryRun : Bool
  sendOk : Bool

/-- Steps 11-12 of `safe_execute_swap_pair` (src/orchestrator.py,
lines 292-306): sign, then either stop on dry-run or broadcast. -/
def finishSigning (dryRun sendOk : Bool) : SwapResult :=
  if dryRun then { outcome := .dryRunSigned, signed := true, sent := false }
  else if sendOk then { outcome := .broadcast, signed := true, sent := true }
  else { outcome := .sendFailed, signed := true, sent := false }

/-- `safe_execute_swap_pair` (src/orchestrator.py, lines 193-306). The
re-quote tolerance check divides by `expected_out_raw`; in Python a zero
quote raises there and the surrounding `except` continues cautiously, which
coincides with ℚ's division-by-zero-is-zero giving `delta = 0` (no abort). -/
def safe_execute_swap_pair (minProfitUsd slippage : ℚ)
    (from_token_sym to_token_sym : TokenSym) (human_amount : ℚ)
    (env : SwapEnv) : SwapResult :=
  match to_raw human_amount from_token_sym with
  | none => { outcome := .badToken, signed := false, sent := false }
  | some amount_raw =>
    match env.quote1 with
    | none => { outcome := .quoteFailed, signed := false, sent := false }
    | some expected_out_raw =>
      let _amount_out_min := pyInt ((expected_out_raw : ℚ) * (1 - slippage))
      if !env.swapTxOk then
        { outcome := .swapBuildFailed, signed := false, sent := false }
      else
        match estimate_and_simulate env.gasEst env.callOk with
        | (gasLimOpt, simOk) =>
          if !simOk then { outcome := .simFailed, signed := false, sent := false }
          else
            let gas_limit := gasLimOpt.getD 0
            let gas_usd := gas_cost_usd gas_limit env.gas_price env.matic_price
            match compute_net_profit_usd amount_raw expected_out_raw
                from_token_sym to_token_sym env.matic_price 0 with
            | none => { outcome := .profitUncomputable, signed := false, sent := false }
            | some net_profit =>
              let net_minus_gas := net_profit - gas_usd
              if net_minus_gas < minProfitUsd then
                { outcome := .profitTooLow, signed := false, sent := false }
              else
                match env.quote2 with
                | some expected_out_raw_now =>
                  let delta_pct := ((expected_out_raw_now : ℚ) - (expected_out_raw : ℚ)) /
                    (expected_out_raw : ℚ)
                  if delta_pct < -(1 / 100) ∨ (1 / 100) < delta_pct then
                    { outcome := .staleQuote, signed := false, sent := false }
                  else finishSigning env.dryRun env.sendOk
                | none => finishSigning env.dryRun env.sendOk

end Orch

namespace SpecModel

/-- Modelled from the spec: the `Tracker state` record of §3
(`attempts_today`, `day_key`, `cumulative_gas_spend_usd`). No counterpart
exists in `src/` — `src/bot.py` tracks only `attempts_today`/`attempt_day`
and no source file records cumulative gas spend. -/
structure SpecTracker where
  attempts_today : Int
  day_key : Nat
  cumulative_gas_spend_usd : ℚ
  deriving DecidableEq, Repr

/-- Modelled from the spec: the tracker operations of §4.5 — the read-only
`check`, the lazy day rollover, and `record(gas_cost_usd)` called after every
submission, reverted or successful. -/
inductive TrackerOp where
  | check
  | rollover (day : Nat)
  | record (gas_cost_usd : ℚ)

/-- Modelled from the spec: §4.5 — `check` reads only; rollover resets
`attempts_today` and advances the day key; `record` adds the gas cost of the
submitted transaction. Nothing ever resets `cumulative_gas_spend_usd`. -/
def trackerStep (st : SpecTracker) : TrackerOp → SpecTracker
  | .check => st
  | .rollover day =>
    if day ≠ st.day_key then { st with attempts_today := 0, day_key := day } else st
  | .record c =>
    { st with cumulative_gas_spend_usd := st.cumulative_gas_spend_usd + c }

/-- A whole process lifetime: the fold of tracker operations. -/
def runOps (st : SpecTracker) (ops : List TrackerOp) : SpecTracker :=
  ops.foldl trackerStep st

/-- Modelled from the spec: the ordered gate chain of §4.3 — profit floor,
gas ceiling, attempt quota, then spend budget (`cumulative_gas_spend_usd`
must be below the ceiling, else `BUDGET_EXHAUSTED`). -/
def specEvaluate (netProfit minProfit gasPrice maxGas : ℚ)
    (attempts maxAttempts : Int) (spend budget : ℚ) : Reason :=
  if ¬ (minProfit < netProfit) then .PROFIT_TOO_LOW
  else if maxGas < gasPrice then .GAS_TOO_HIGH
  else if ¬ (attempts < maxAttempts) then .QUOTA_EXCEEDED
  else if ¬ (spend < budget) then .BUDGET_EXHAUSTED
  else .NONE

end SpecModel

/-! ## Helper lemmas -/

theorem pyInt_nonneg {q : ℚ} (h : 0 ≤ q) : 0 ≤ pyInt q := by
  unfold pyInt
  rw [if_neg (not_lt.mpr h)]
  exact Int.floor_nonneg.mpr h

theorem usdc_to_base_nonneg {q : ℚ} (h : 0 ≤ q) : 0 ≤ Bot.usdc_to_base q := by
  unfold Bot.usdc_to_base
  exact pyInt_nonneg (by positivity)

theorem pyInt_intCast (n : ℤ) : pyInt (n : ℚ) = n := by
  unfold pyInt
  split_ifs <;> simp

theorem roundHalfEven_intCast (n : ℤ) : Orch.roundHalfEven (n : ℚ) = n := by
  unfold Orch.roundHalfEven
  rw [Int.floor_intCast]
  norm_num

/-! ## C2: gate order in `should_trade` -/

/-- C2: `FlashLoanBot.should_trade` applies its gates in the fixed order
profit floor, gas-price ceiling, daily attempt quota, short-circuiting at the
first failing gate: for every input whose estimated profit is below the
minimum and whose gas price also exceeds the ceiling, the decision is the
profit rejection and the gas-price oracle is never consulted. -/
theorem C2_gate_order_profit_first (cfg : Bot.BotConfig) (gas : ℚ) (day : Nat)
    (t : Bot.Tracker) (profit : Int)
    (hp : profit < Bot.usdc_to_base cfg.min_profit_usdc)
    (hg : cfg.max_gas_gwei < gas) :
    Bot.should_trade cfg gas day t profit =
      { accept := false, reason := Reason.PROFIT_TOO_LOW, tracker := t,
        gasQueried := false } := by
  unfold Bot.should_trade
  rw [if_pos hp]

/-- Witness for C2: profit 1.0 USDC below the 1.2 USDC floor while gas
90 gwei exceeds the 80 gwei ceiling; the profit gate fires. -/
theorem C2_gate_order_profit_first_witness :
    Bot.should_trade ⟨true, 10, 12 / 10, 80, 3⟩ 90 0 ⟨0, 0⟩ 1000000 =
      { accept := false, reason := Reason.PROFIT_TOO_LOW, tracker := ⟨0, 0⟩,
        gasQueried := false } :=
  C2_gate_order_profit_first ⟨true, 10, 12 / 10, 80, 3⟩ 90 0 ⟨0, 0⟩ 1000000
    (by norm_num [Bot.usdc_to_base, pyInt, Int.floor_eq_iff])
    (by norm_num)

/-! ## C3: `should_trade` and the tracker -/

/-- C3 fails as stated: when the stored day differs from the current date and
the first two gates pass, `should_trade` mutates the tracker through
`_reset_daily_counter_if_needed` (attempt_day 0 becomes 1, attempts_today 1
becomes 0). -/
theorem C3_counterexample :
    (Bot.should_trade ⟨true, 10, 12 / 10, 80, 3⟩ 50 1 ⟨1, 0⟩ 2000000).tracker ≠
      (⟨1, 0⟩ : Bot.Tracker) := by
  norm_num [Bot.should_trade, Bot.usdc_to_base, pyInt, Int.floor_eq_iff,
    Bot.resetDailyCounterIfNeeded]

/-- C3 amended: `should_trade` performs no tracker mutation other than the
lazy day rollover — when the stored day equals the current date the tracker
is unchanged on every path, and in general the tracker after the call is
either the input tracker or its day-rollover reset. -/
theorem C3_amended_no_mutation_same_day (cfg : Bot.BotConfig) (gas : ℚ)
    (day : Nat) (t : Bot.Tracker) (profit : Int) :
    (day = t.attempt_day → (Bot.should_trade cfg gas day t profit).tracker = t) ∧
    ((Bot.should_trade cfg gas day t profit).tracker = t ∨
      (Bot.should_trade cfg gas day t profit).tracker =
        Bot.resetDailyCounterIfNeeded day t) := by
  constructor
  · intro h
    have hr : Bot.resetDailyCounterIfNeeded day t = t := by
      simp [Bot.resetDailyCounterIfNeeded, h]
    unfold Bot.should_trade
    rw [hr]
    split_ifs <;> rfl
  · unfold Bot.should_trade
    split_ifs <;> simp

/-- Witness for C3 amended: same-day evaluation leaves the tracker intact. -/
theorem C3_amended_witness :
    (Bot.should_trade ⟨true, 10, 12 / 10, 80, 3⟩ 50 0 ⟨0, 0⟩ 0).tracker =
      (⟨0, 0⟩ : Bot.Tracker) :=
  (C3_amended_no_mutation_same_day ⟨true, 10, 12 / 10, 80, 3⟩ 50 0 ⟨0, 0⟩ 0).1 rfl

/-! ## C6: lazy day rollover -/

/-- C6: `_reset_daily_counter_if_needed` evaluates the day key lazily — on a
date mismatch `attempts_today` resets to zero and the stored day advances to
the current date; on a match the tracker is unchanged; and the operation is
idempotent, so repeated cycles within one day reset at most once. -/
theorem C6_lazy_day_rollover (d : Nat) (t : Bot.Tracker) :
    (d ≠ t.attempt_day →
      Bot.resetDailyCounterIfNeeded d t = { attempts_today := 0, attempt_day := d }) ∧
    (d = t.attempt_day → Bot.resetDailyCounterIfNeeded d t = t) ∧
    Bot.resetDailyCounterIfNeeded d (Bot.resetDailyCounterIfNeeded d t) =
      Bot.resetDailyCounterIfNeeded d t := by
  unfold Bot.resetDailyCounterIfNeeded
  refine ⟨fun h => ?_, fun h => ?_, ?_⟩
  · rw [if_pos h]
  · rw [if_neg (by simp [h])]
  · split_ifs <;> simp_all

/-- Witness for C6: crossing from day 0 to day 1 resets a count of 5. -/
theorem C6_lazy_day_rollover_witness :
    Bot.resetDailyCounterIfNeeded 1 ⟨5, 0⟩ =
      { attempts_today := 0, attempt_day := 1 } :=
  (C6_lazy_day_rollover 1 ⟨5, 0⟩).1 (by decide)

/-! ## C1: simulate-before-send -/

/-- C1 fails as stated: `FlashLoanBot.execute_trade` (src/bot.py) contains no
read-only simulation at all, and in live mode (`dry_run = false`) with a
successful RPC chain it submits the transaction — `submitted = true` with
`simulated = false`. -/
theorem C1_counterexample :
    (Bot.execute_trade false true ⟨0, 0⟩).submitted = true ∧
    (Bot.execute_trade false true ⟨0, 0⟩).simulated = false := by
  exact ⟨rfl, rfl⟩

/-- C1 amended: the liquidation engine and the 1inch swap executor obey
simulate-before-send — `execute_liquidation` submits only after a successful
`eth_call` simulation, and `safe_execute_swap_pair` broadcasts only when the
`estimate_and_simulate` step succeeded (which requires the `eth_call` to
succeed) — but `bot.py`'s `execute_trade` never simulates on any path. -/
theorem C1_amended_simulate_before_send :
    (∀ env : LiqMon.LiqEnv,
      (LiqMon.execute_liquidation env).submitted = true →
        (LiqMon.execute_liquidation env).simulated = true ∧ env.simOk = true) ∧
    (∀ (mp sl : ℚ) (fs ts : TokenSym) (amt : ℚ) (env : Orch.SwapEnv),
      (Orch.safe_execute_swap_pair mp sl fs ts amt env).sent = true →
        env.callOk = true ∧
        (Orch.estimate_and_simulate env.gasEst env.callOk).2 = true) ∧
    (∀ (dr s : Bool) (t : Bot.Tracker), (Bot.execute_trade dr s t).simulated = false) := by
  refine ⟨?_, ?_, ?_⟩
  · intro env h
    unfold LiqMon.execute_liquidation at h ⊢
    split_ifs at h ⊢ <;> simp_all
  · intro mp sl fs ts amt env h
    have hsim : (Orch.estimate_and_simulate env.gasEst env.callOk).2 = true := by
      unfold Orch.safe_execute_swap_pair at h
      repeat' split at h
      all_goals simp_all [Orch.finishSigning]
    have hcall : env.callOk = true := by
      unfold Orch.estimate_and_simulate at hsim
      cases hg : env.gasEst with
      | none => rw [hg] at hsim; simp at hsim
      | some g => rw [hg] at hsim; exact hsim
    exact ⟨hcall, hsim⟩
  · intro dr s t
    unfold Bot.execute_trade
    split_ifs <;> rfl

/-- Witness for C1 amended: a live liquidation run with a successful
simulation and send was indeed simulated. -/
theorem C1_amended_witness :
    (LiqMon.execute_liquidation ⟨true, true, true, 0, true⟩).simulated = true ∧
    (⟨true, true, true, 0, true⟩ : LiqMon.LiqEnv).simOk = true :=
  C1_amended_simulate_before_send.1 ⟨true, true, true, 0, true⟩ rfl

/-! ## C5: the $1,000 liquidation scenario -/

/-- C5 fails as stated: for a $1,000 USDC debt the fixed fee model of
`scan_borrowers` gives a best-candidate profit of exactly $45.60
(1000·0.05 − 1000·0.0009 − 1000·0.003 − 0.50), which is not within half a
dollar of the claimed ≈ $46.60. -/
theorem C5_counterexample :
    (LiqMon.selectCollateral (LiqMon.debt_usd TokenSym.USDC 1000000000)
        [TokenSym.WETH, TokenSym.WMATIC]).1 = 456 / 10 ∧
    ¬ (|(LiqMon.selectCollateral (LiqMon.debt_usd TokenSym.USDC 1000000000)
        [TokenSym.WETH, TokenSym.WMATIC]).1 - 466 / 10| ≤ 1 / 2) := by
  have h : (LiqMon.selectCollateral (LiqMon.debt_usd TokenSym.USDC 1000000000)
      [TokenSym.WETH, TokenSym.WMATIC]).1 = 456 / 10 := by
    norm_num [LiqMon.selectCollateral, LiqMon.selectStep, LiqMon.liqProfit,
      LiqMon.debt_usd, LiqMon.DECIMALS, LiqMon.get_token_price]
  refine ⟨h, ?_⟩
  rw [h, abs_le]
  norm_num

/-- C5 amended: under the fixed fee model a liquidatable position with debt
value $1,000 and candidates [WETH, WMATIC] yields a best-candidate profit of
exactly $45.60 (first candidate WETH selected), and with the $2
minimum-profit threshold it is accepted. -/
theorem C5_amended_scenario :
    LiqMon.selectCollateral (LiqMon.debt_usd TokenSym.USDC 1000000000)
        [TokenSym.WETH, TokenSym.WMATIC] = (456 / 10, some TokenSym.WETH) ∧
    LiqMon.liqAccepted 2 (LiqMon.selectCollateral
        (LiqMon.debt_usd TokenSym.USDC 1000000000)
        [TokenSym.WETH, TokenSym.WMATIC]) = true := by
  have h : LiqMon.selectCollateral (LiqMon.debt_usd TokenSym.USDC 1000000000)
      [TokenSym.WETH, TokenSym.WMATIC] = (456 / 10, some TokenSym.WETH) := by
    norm_num [LiqMon.selectCollateral, LiqMon.selectStep, LiqMon.liqProfit,
      LiqMon.debt_usd, LiqMon.DECIMALS, LiqMon.get_token_price]
  refine ⟨h, ?_⟩
  rw [h]
  norm_num [LiqMon.liqAccepted]

/-! ## C7: candidate selection -/

/-- C7: for an eligible borrower, the candidate-collateral loop of
`scan_borrowers` selects the first element of the (nonempty) candidate list —
ties on the fixed fee model's profit (which is identical for every candidate)
are broken by list order — and the selected profit is the maximum: no
candidate in the list has a larger estimated profit. -/
theorem C7_first_candidate_argmax (d : ℚ) (c : TokenSym) (cs : List TokenSym)
    (hd : 0 ≤ d) :
    (LiqMon.selectCollateral d (c :: cs)).1 = LiqMon.liqProfit d ∧
    (LiqMon.selectCollateral d (c :: cs)).2 = some c ∧
    ∀ x ∈ c :: cs, LiqMon.liqProfit d ≤ (LiqMon.selectCollateral d (c :: cs)).1 := by
  have hgt : (-9999 : ℚ) < LiqMon.liqProfit d := by
    unfold LiqMon.liqProfit
    nlinarith
  have hstep : LiqMon.selectStep d (-9999, none) c = (LiqMon.liqProfit d, some c) := by
    unfold LiqMon.selectStep
    rw [if_pos hgt]
  have hfold : ∀ (l : List TokenSym),
      List.foldl (LiqMon.selectStep d) (LiqMon.liqProfit d, some c) l =
        (LiqMon.liqProfit d, some c) := by
    intro l
    induction l with
    | nil => rfl
    | cons y ys ih =>
      rw [List.foldl_cons]
      have hy : LiqMon.selectStep d (LiqMon.liqProfit d, some c) y =
          (LiqMon.liqProfit d, some c) := by
        unfold LiqMon.selectStep
        simp
      rw [hy, ih]
  have hsel : LiqMon.selectCollateral d (c :: cs) = (LiqMon.liqProfit d, some c) := by
    unfold LiqMon.selectCollateral
    rw [List.foldl_cons, hstep, hfold]
  refine ⟨by rw [hsel], by rw [hsel], ?_⟩
  intro x _
  rw [hsel]

/-- Witness for C7: debt $1,000, candidates [WETH, WMATIC]; WETH (first) is
selected. -/
theorem C7_first_candidate_argmax_witness :
    (LiqMon.selectCollateral 1000 [TokenSym.WETH, TokenSym.WMATIC]).2 =
      some TokenSym.WETH :=
  (C7_first_candidate_argmax 1000 TokenSym.WETH [TokenSym.WMATIC] (by norm_num)).2.1

/-! ## C4: simulation failure aborts -/

/-- C4: in `safe_execute_swap_pair`, when the run reaches the
estimate-and-simulate step (quote and swap-calldata succeeded) and the
simulation fails — the gas estimation raises or the `eth_call` reverts —
execution stops at `simFailed`: nothing is signed and nothing is sent. -/
theorem C4_sim_failure_aborts (mp sl : ℚ) (fs ts : TokenSym) (amt : ℚ)
    (env : Orch.SwapEnv) (a q1 : Int)
    (ht : Orch.to_raw amt fs = some a)
    (hq : env.quote1 = some q1)
    (hs : env.swapTxOk = true)
    (hsim : env.gasEst = none ∨ env.callOk = false) :
    Orch.safe_execute_swap_pair mp sl fs ts amt env =
      { outcome := Orch.SwapOutcome.simFailed, signed := false, sent := false } := by
  have hsim2 : (Orch.estimate_and_simulate env.gasEst env.callOk).2 = false := by
    rcases hsim with h | h
    · rw [h]
      rfl
    · cases hg : env.gasEst <;> simp [Orch.estimate_and_simulate, h]
  unfold Orch.safe_execute_swap_pair
  rw [ht, hq, hs]
  simp only [Bool.not_true, Bool.false_eq_true, if_false]
  rw [show Orch.estimate_and_simulate env.gasEst env.callOk =
      ((Orch.estimate_and_simulate env.gasEst env.callOk).1,
       (Orch.estimate_and_simulate env.gasEst env.callOk).2) from rfl, hsim2]
  rfl

/-- Witness for C4: a run whose gas estimation raises (simulation failure)
stops at `simFailed` without signing or sending. -/
theorem C4_sim_failure_aborts_witness :
    Orch.safe_execute_swap_pair 10 (3 / 1000) TokenSym.USDC TokenSym.USDT 100
      ⟨some 200000000, true, none, false, 30000000000, 1 / 2, none, true, true⟩ =
      { outcome := Orch.SwapOutcome.simFailed, signed := false, sent := false } :=
  C4_sim_failure_aborts 10 (3 / 1000) TokenSym.USDC TokenSym.USDT 100
    ⟨some 200000000, true, none, false, 30000000000, 1 / 2, none, true, true⟩
    (Orch.roundHalfEven (100 * 10 ^ 6)) 200000000 rfl rfl rfl (Or.inl rfl)

/-! ## C8: stale-quote re-check -/

/-- C8: just before signing, `safe_execute_swap_pair` re-fetches the quote;
when the run has passed every earlier step (token known, quote and calldata
obtained, simulation succeeded, net profit above the floor) and the re-quoted
output differs from the original by more than 1% in either direction, it
aborts at `staleQuote`: nothing is signed and nothing is sent. -/
theorem C8_stale_quote_aborts (mp sl : ℚ) (fs ts : TokenSym) (amt : ℚ)
    (env : Orch.SwapEnv) (a q1 g q2 : Int) (np : ℚ)
    (ht : Orch.to_raw amt fs = some a)
    (hq : env.quote1 = some q1)
    (hs : env.swapTxOk = true)
    (hg : env.gasEst = some g)
    (hc : env.callOk = true)
    (hnp : Orch.compute_net_profit_usd a q1 fs ts env.matic_price 0 = some np)
    (hmin : ¬ (np -
        Orch.gas_cost_usd (pyInt ((g : ℚ) * Orch.GAS_BUFFER_MULTIPLIER))
          env.gas_price env.matic_price < mp))
    (hq2 : env.quote2 = some q2)
    (hdelta : ((q2 : ℚ) - (q1 : ℚ)) / (q1 : ℚ) < -(1 / 100) ∨
      (1 / 100) < ((q2 : ℚ) - (q1 : ℚ)) / (q1 : ℚ)) :
    Orch.safe_execute_swap_pair mp sl fs ts amt env =
      { outcome := Orch.SwapOutcome.staleQuote, signed := false, sent := false } := by
  unfold Orch.safe_execute_swap_pair
  rw [ht, hq, hs]
  simp only [Bool.not_true, Bool.false_eq_true, if_false]
  rw [show Orch.estimate_and_simulate env.gasEst env.callOk =
      ((Orch.estimate_and_simulate env.gasEst env.callOk).1,
       (Orch.estimate_and_simulate env.gasEst env.callOk).2) from rfl]
  rw [show (Orch.estimate_and_simulate env.gasEst env.callOk).2 = true by
      rw [hg, hc]; rfl]
  simp only [Bool.not_true, Bool.false_eq_true, if_false]
  rw [show (Orch.estimate_and_simulate env.gasEst env.callOk).1 =
      some (pyInt ((g : ℚ) * Orch.GAS_BUFFER_MULTIPLIER)) by rw [hg, hc]; rfl]
  rw [hnp]
  simp only [Option.getD_some]
  rw [if_neg hmin, hq2]
  exact if_pos hdelta

/-- Witness for C8: a run that passed simulation and the profit floor but
whose re-quote moved from 200000000 to 300000000 (+50%, beyond ±1%) stops at
`staleQuote`. -/
theorem C8_stale_quote_aborts_witness :
    Orch.safe_execute_swap_pair 10 (3 / 1000) TokenSym.USDC TokenSym.USDT 100
      ⟨some 200000000, true, some 100000, true, 30000000000, 1 / 2,
        some 300000000, true, true⟩ =
      { outcome := Orch.SwapOutcome.staleQuote, signed := false, sent := false } :=
  C8_stale_quote_aborts 10 (3 / 1000) TokenSym.USDC TokenSym.USDT 100
    ⟨some 200000000, true, some 100000, true, 30000000000, 1 / 2,
      some 300000000, true, true⟩
    100000000 200000000 100000 300000000 100
    (by
      have h0 : Orch.to_raw 100 TokenSym.USDC =
          some (Orch.roundHalfEven (100 * 10 ^ 6)) := rfl
      rw [h0, show ((100 : ℚ) * 10 ^ 6) = ((100000000 : ℤ) : ℚ) by norm_num,
        roundHalfEven_intCast])
    rfl rfl rfl rfl
    (by
      unfold Orch.compute_net_profit_usd
      norm_num [Orch.from_raw, Orch.TOKEN_DECIMALS]
      split_ifs <;> simp_all <;> norm_num)
    (by
      rw [show (((100000 : ℤ) : ℚ) * Orch.GAS_BUFFER_MULTIPLIER) = ((120000 : ℤ) : ℚ) by
          norm_num [Orch.GAS_BUFFER_MULTIPLIER],
        pyInt_intCast]
      norm_num [Orch.gas_cost_usd])
    rfl
    (by norm_num)

/-! ## C9: spend budget (spec-modelled) -/

/-- C9 (modelled from the spec — no budget tracker exists in `src/`):
`cumulative_gas_spend_usd` is monotonically non-decreasing — every single
tracker operation with a non-negative recorded gas cost (including recording
a reverted transaction) leaves it greater than or equal to its previous
value, hence so does any whole process lifetime, and nothing resets it — and
the evaluator's fourth gate rejects with BUDGET_EXHAUSTED once the spend
reaches the configured ceiling while the first three gates pass. -/
theorem C9_budget_monotone_and_gate :
    (∀ (st : SpecModel.SpecTracker) (op : SpecModel.TrackerOp),
      (∀ c : ℚ, op = SpecModel.TrackerOp.record c → 0 ≤ c) →
      st.cumulative_gas_spend_usd ≤
        (SpecModel.trackerStep st op).cumulative_gas_spend_usd) ∧
    (∀ (st : SpecModel.SpecTracker) (ops : List SpecModel.TrackerOp),
      (∀ c : ℚ, SpecModel.TrackerOp.record c ∈ ops → 0 ≤ c) →
      st.cumulative_gas_spend_usd ≤
        (SpecModel.runOps st ops).cumulative_gas_spend_usd) ∧
    (∀ (netProfit minProfit gasPrice maxGas : ℚ) (attempts maxAttempts : Int)
        (spend budget : ℚ),
      minProfit < netProfit → gasPrice ≤ maxGas → attempts < maxAttempts →
      budget ≤ spend →
      SpecModel.specEvaluate netProfit minProfit gasPrice maxGas attempts
        maxAttempts spend budget = Reason.BUDGET_EXHAUSTED) := by
  have hstep : ∀ (st : SpecModel.SpecTracker) (op : SpecModel.TrackerOp),
      (∀ c : ℚ, op = SpecModel.TrackerOp.record c → 0 ≤ c) →
      st.cumulative_gas_spend_usd ≤
        (SpecModel.trackerStep st op).cumulative_gas_spend_usd := by
    intro st op h
    cases op with
    | check => exact le_refl _
    | rollover day =>
      simp only [SpecModel.trackerStep]
      split_ifs <;> simp
    | record c =>
      have hc := h c rfl
      simp only [SpecModel.trackerStep]
      linarith
  refine ⟨hstep, ?_, ?_⟩
  · intro st ops h
    induction ops generalizing st with
    | nil => exact le_refl _
    | cons op ops ih =>
      have h1 : st.cumulative_gas_spend_usd ≤
          (SpecModel.trackerStep st op).cumulative_gas_spend_usd :=
        hstep st op (fun c hc => h c (by rw [hc]; exact List.mem_cons_self _ _))
      have h2 := ih (SpecModel.trackerStep st op)
        (fun c hc => h c (List.mem_cons_of_mem _ hc))
      exact le_trans h1 h2
  · intro netProfit minProfit gasPrice maxGas attempts maxAttempts spend budget
      h1 h2 h3 h4
    unfold SpecModel.specEvaluate
    rw [if_neg (not_not_intro h1), if_neg (not_lt.mpr h2),
      if_neg (not_not_intro h3), if_pos (not_lt.mpr h4)]

/-- Witness for C9: a lifetime of check / rollover / record($3) / record($2,
a reverted transaction's gas) grows the spend from $5 to $10; and a $100
spend against a $30 budget is rejected as BUDGET_EXHAUSTED when profit, gas
and quota gates all pass. -/
theorem C9_budget_monotone_and_gate_witness :
    (⟨0, 0, 5⟩ : SpecModel.SpecTracker).cumulative_gas_spend_usd ≤
      (SpecModel.runOps ⟨0, 0, 5⟩
        [SpecModel.TrackerOp.check, SpecModel.TrackerOp.rollover 1,
          SpecModel.TrackerOp.record 3,
          SpecModel.TrackerOp.record 2]).cumulative_gas_spend_usd ∧
    SpecModel.specEvaluate 5 1 10 80 0 3 100 30 = Reason.BUDGET_EXHAUSTED := by
  constructor
  · refine C9_budget_monotone_and_gate.2.1 ⟨0, 0, 5⟩ _ ?_
    intro c hc
    simp only [List.mem_cons, List.not_mem_nil, or_false] at hc
    rcases hc with h | h | h | h <;> simp at h <;> rw [h] <;> norm_num
  · exact C9_budget_monotone_and_gate.2.2 5 1 10 80 0 3 100 30
      (by norm_num) (by norm_num) (by norm_num) (by norm_num)

/-! ## C10: failed venue query handling -/

/-- C10 fails as stated: with the buy-leg QuickSwap query raising
(`quickBuy _ = none`), the chained SushiSwap sell is queried with input 0; if
that venue replies with a positive output (5000000 here), the Q→S round-trip
profit is 4000000 base units, not minus the input amount, and `should_trade`
accepts the direction even though `min_profit_usdc = 1.2 ≥ 0` — so a
direction containing a failed venue query can be accepted. -/
theorem C10_counterexample :
    (0 : ℚ) ≤ (⟨true, 10, 12 / 10, 80, 3⟩ : Bot.BotConfig).min_profit_usdc ∧
    (⟨fun _ => none, fun _ => none, fun _ => none, fun _ => some [5000000]⟩ :
        Bot.QuoteEnv).quickBuy 1000000 = none ∧
    (Bot.estimate_roundtrip_profit
        ⟨fun _ => none, fun _ => none, fun _ => none, fun _ => some [5000000]⟩
        1000000).2 ≤
      (Bot.estimate_roundtrip_profit
        ⟨fun _ => none, fun _ => none, fun _ => none, fun _ => some [5000000]⟩
        1000000).1 ∧
    (Bot.should_trade ⟨true, 10, 12 / 10, 80, 3⟩ 50 0 ⟨0, 0⟩
      (Bot.estimate_roundtrip_profit
        ⟨fun _ => none, fun _ => none, fun _ => none, fun _ => some [5000000]⟩
        1000000).1).accept = true := by
  refine ⟨by norm_num, rfl, ?_, ?_⟩
  · norm_num [Bot.estimate_roundtrip_profit, Bot.get_amount_out]
  · norm_num [Bot.should_trade, Bot.estimate_roundtrip_profit, Bot.get_amount_out,
      Bot.usdc_to_base, pyInt, Int.floor_eq_iff, Bot.resetDailyCounterIfNeeded]

/-- C10 amended: when the final (sell-leg) venue query of a direction yields
0 — in particular whenever that router call raises, since `get_amount_out`
then returns 0 — the direction's round-trip profit equals minus the input
amount, and for every configuration with `min_profit_usdc ≥ 0` and a positive
input amount `should_trade` rejects that direction at the profit gate. -/
theorem C10_amended_failed_sell_leg (env : Bot.QuoteEnv) (amt : Int)
    (cfg : Bot.BotConfig) (gas : ℚ) (day : Nat) (t : Bot.Tracker)
    (hamt : 0 < amt) (hmin : 0 ≤ cfg.min_profit_usdc) :
    (Bot.get_amount_out (env.sushiSell (Bot.get_amount_out (env.quickBuy amt))) = 0 →
      (Bot.estimate_roundtrip_profit env amt).1 = -amt ∧
      Bot.should_trade cfg gas day t (Bot.estimate_roundtrip_profit env amt).1 =
        { accept := false, reason := Reason.PROFIT_TOO_LOW, tracker := t,
          gasQueried := false }) ∧
    (Bot.get_amount_out (env.quickSell (Bot.get_amount_out (env.sushiBuy amt))) = 0 →
      (Bot.estimate_roundtrip_profit env amt).2 = -amt ∧
      Bot.should_trade cfg gas day t (Bot.estimate_roundtrip_profit env amt).2 =
        { accept := false, reason := Reason.PROFIT_TOO_LOW, tracker := t,
          gasQueried := false }) := by
  have hreject : Bot.should_trade cfg gas day t (-amt) =
      { accept := false, reason := Reason.PROFIT_TOO_LOW, tracker := t,
        gasQueried := false } := by
    unfold Bot.should_trade
    rw [if_pos]
    calc -amt < 0 := by omega
      _ ≤ Bot.usdc_to_base cfg.min_profit_usdc := usdc_to_base_nonneg hmin
  constructor
  · intro h
    have hp : (Bot.estimate_roundtrip_profit env amt).1 = -amt := by
      show Bot.get_amount_out (env.sushiSell (Bot.get_amount_out (env.quickBuy amt))) -
        amt = -amt
      rw [h]
      omega
    exact ⟨hp, by rw [hp]; exact hreject⟩
  · intro h
    have hp : (Bot.estimate_roundtrip_profit env amt).2 = -amt := by
      show Bot.get_amount_out (env.quickSell (Bot.get_amount_out (env.sushiBuy amt))) -
        amt = -amt
      rw [h]
      omega
    exact ⟨hp, by rw [hp]; exact hreject⟩

/-- Witness for C10 amended: SushiSwap's sell leg raises, so the Q→S profit
is −1000000 and the direction is rejected at the profit gate. -/
theorem C10_amended_failed_sell_leg_witness :
    (Bot.estimate_roundtrip_profit
      ⟨fun _ => some [500000000000000], fun _ => none, fun _ => none, fun _ => none⟩
      1000000).1 = -1000000 ∧
    Bot.should_trade ⟨true, 10, 12 / 10, 80, 3⟩ 50 0 ⟨0, 0⟩
      (Bot.estimate_roundtrip_profit
        ⟨fun _ => some [500000000000000], fun _ => none, fun _ => none, fun _ => none⟩
        1000000).1 =
      { accept := false, reason := Reason.PROFIT_TOO_LOW, tracker := ⟨0, 0⟩,
        gasQueried := false } :=
  (C10_amended_failed_sell_leg
    ⟨fun _ => some [500000000000000], fun _ => none, fun _ => none, fun _ => none⟩
    1000000 ⟨true, 10, 12 / 10, 80, 3⟩ 50 0 ⟨0, 0⟩
    (by norm_num) (by norm_num)).1 rfl
